import Mathlib

/-!
Verification of the CHM core time-stepping controller policies
(`src/core.hpp`): output-trigger evaluation (`output_info::should_output`),
checkpoint policy (`chkptOp::should_checkpoint`, including the MPI
maximum all-reduce used for the distributed out-of-time decision), and
HPC-scheduler wall-clock detection (`hpc_scheduler_info::detect`).

The embedding is a direct transliteration of the C++ in `core.hpp`:
`boost::optional<T>` becomes `Option T`, `size_t` becomes `Nat` with the
unsigned 64-bit wraparound made explicit where subtraction occurs,
`boost::posix_time::time_duration` and absolute wall-clock instants become
`Int` (seconds), and a method that may mutate its object is embedded as a
function from the object to a result paired with the post-state.
-/

/-- Shallow embedding of `boost::posix_time::ptime` restricted to the
observations `core.hpp` makes of it: the date part (`day`, days since an
arbitrary epoch), and the time-of-day fields `hours`, `minutes`, `seconds`.
`ptime` equality in boost is equality of all components, which matches the
derived structure equality. -/
structure ptime where
  day : Nat
  hours : Nat
  minutes : Nat
  seconds : Nat
  deriving DecidableEq

/-- `SIZE_MAX`, the largest value of the 64-bit unsigned `size_t`. -/
def SIZE_MAX : Nat := 2 ^ 64 - 1

/-- Unsigned 64-bit subtraction: the value of the C++ expression `a - b` on
`size_t` operands (wraps modulo `2^64`). For `a`, `b` in range with
`b ≤ a` this is ordinary subtraction. -/
def size_t_sub (a b : Nat) : Nat :=
  (a % 2 ^ 64 + (2 ^ 64 - b % 2 ^ 64)) % 2 ^ 64

/-- `core::output_info::output_type`. -/
inductive output_type where
  | time_series
  | mesh
  deriving DecidableEq

/-- `core::output_info::mesh_outputs`. -/
inductive mesh_outputs where
  | vtp
  | vtu
  | ascii
  deriving DecidableEq

/-- `core::output_info`: one requested output with its four optional
triggers.  The geometric fields (`latitude`, `longitude`, `x`, `y`) are
IEEE doubles in the source; `should_output` neither reads nor writes them,
so they are carried as `Int` stand-ins for the frame property.  The opaque
external-collaborator members `face` (a mesh-element pointer) and `ts`
(a `timeseries`) are outside this core's scope and are omitted.  The C++
member `variables` is called `variable_names` here, `variables` being a
reserved word in Lean. -/
structure output_info where
  type : output_type
  name : String
  mesh_output_formats : List mesh_outputs
  fname : String
  latitude : Int
  longitude : Int
  x : Int
  y : Int
  variable_names : List String
  frequency : Option Nat
  specific_datetime : Option ptime
  specific_time : Option ptime
  only_last_n : Option Nat
  deriving DecidableEq

/-- The `output_info()` default constructor: `fname`, `name` empty,
coordinates zero, `only_last_n{SIZE_MAX}` (an engaged optional holding
`SIZE_MAX`); the other three trigger optionals are default-constructed,
i.e. disengaged.  `type` is left uninitialized by the constructor, so the
model takes its indeterminate value as a parameter. -/
def output_info_ctor (t : output_type) : output_info :=
  { type := t
    name := ""
    mesh_output_formats := []
    fname := ""
    latitude := 0
    longitude := 0
    x := 0
    y := 0
    variable_names := []
    frequency := none
    specific_datetime := none
    specific_time := none
    only_last_n := some SIZE_MAX }

/-- `core::output_info::should_output(max_ts, current_ts, _current_date)`.
The C++ body initializes a local `bool should_output = false` and runs four
independent `if` blocks, each setting it to `true` when its trigger is
engaged and matches; the successive values of that local are `r0`–`r4`
here.  The method writes no data member, which the embedding records by
returning the object alongside the boolean. -/
def output_info.should_output (self : output_info) (max_ts current_ts : Nat)
    (_current_date : ptime) : Bool × output_info :=
  let r0 := false
  let r1 :=
    match self.only_last_n with
    | some n =>
      let ts_left := size_t_sub max_ts current_ts
      if ts_left ≤ n then true else r0
    | none => r0
  let r2 :=
    match self.frequency with
    | some f => if current_ts % f = 0 then true else r1
    | none => r1
  let r3 :=
    match self.specific_time with
    | some t =>
      if _current_date.hours = t.hours ∧ _current_date.minutes = t.minutes
      then true else r2
    | none => r2
  let r4 :=
    match self.specific_datetime with
    | some dt => if _current_date = dt then true else r3
    | none => r3
  (r4, self)

/-- Spec-side trigger predicate: the only-last-n trigger matches iff
`max_ts - current_ts ≤ n` (size_t arithmetic); unconfigured never matches. -/
def matches_only_last_n (o : output_info) (max_ts current_ts : Nat) : Bool :=
  match o.only_last_n with
  | some n => decide (size_t_sub max_ts current_ts ≤ n)
  | none => false

/-- Spec-side trigger predicate: the frequency trigger matches iff the
current timestep is a multiple of the frequency; unconfigured never
matches. -/
def matches_frequency (o : output_info) (current_ts : Nat) : Bool :=
  match o.frequency with
  | some f => decide (current_ts % f = 0)
  | none => false

/-- Spec-side trigger predicate: the specific-time-of-day trigger matches
on the current date's hour and minute; unconfigured never matches. -/
def matches_specific_time (o : output_info) (d : ptime) : Bool :=
  match o.specific_time with
  | some t => decide (d.hours = t.hours) && decide (d.minutes = t.minutes)
  | none => false

/-- Spec-side trigger predicate: the specific-absolute-timestamp trigger
matches when the current date equals it; unconfigured never matches. -/
def matches_specific_datetime (o : output_info) (d : ptime) : Bool :=
  match o.specific_datetime with
  | some dt => decide (d = dt)
  | none => false

/-- Scenario descriptor of the spec: `only_last_n = 5`, no other trigger. -/
def last5_output : output_info :=
  { output_info_ctor output_type.time_series with only_last_n := some 5 }

/-- Scenario descriptor of the spec: `frequency = 10`, no other trigger. -/
def freq10_output : output_info :=
  { output_info_ctor output_type.time_series with
      only_last_n := none
      frequency := some 10 }

/-- `core::hpc_scheduler_info`: wall-clock budget state.  Durations and
wall-clock instants are modelled as `Int` seconds; `max_wallclock` is a
`time_duration` and `wallclock_start` an absolute `ptime` instant. -/
structure hpc_scheduler_info where
  max_wallclock : Int
  wallclock_start : Int
  has_wallclock_limit : Bool
  deriving DecidableEq

/-- `hpc_scheduler_info()` constructor: `max_wallclock = seconds(0)`,
`has_wallclock_limit = false`; `wallclock_start` is left default
(not-a-date-time), modelled as instant `0`. -/
def hpc_scheduler_info.ctor : hpc_scheduler_info :=
  { max_wallclock := 0
    wallclock_start := 0
    has_wallclock_limit := false }

/-- `hpc_scheduler_info::wallclock_remaining()`:
`max_wallclock - (local_time() - wallclock_start)`.  The current
wall-clock instant read from `second_clock::local_time()` is the
explicit argument `now`. -/
def hpc_scheduler_info.wallclock_remaining (self : hpc_scheduler_info)
    (now : Int) : Int :=
  self.max_wallclock - (now - self.wallclock_start)

/-- The process environment variables read by
`hpc_scheduler_info::detect` via `std::getenv`. -/
structure chm_environment where
  SLURM_JOB_ID : Option String
  SLURM_TASK_PID : Option String
  SLURM_PROCID : Option String
  PBS_JOBID : Option String
  CHM_WALLCLOCK_LIMIT : Option String
  deriving DecidableEq

/-- `hpc_scheduler_info::detect()`.  The SLURM and PBS blocks of the C++
body only call `std::getenv` on the job-identifier variables and emit
debug log lines; they read and write no member, so they contribute nothing
to the state transition.  Only `CHM_WALLCLOCK_LIMIT` is consulted for the
budget: if present and parsed by `boost::posix_time::duration_from_string`
(the boost library parser, abstracted as the `duration_from_string`
argument, `none` meaning the parse throws), the three members are set; if
the parse throws, the exception is caught and rethrown as a `chm_error`
before any member is assigned.  The result pairs the post-state of the
object with the thrown error message, if any. -/
def hpc_scheduler_info.detect (self : hpc_scheduler_info)
    (env : chm_environment) (duration_from_string : String → Option Int)
    (now : Int) : hpc_scheduler_info × Option String :=
  match env.CHM_WALLCLOCK_LIMIT with
  | none => (self, none)
  | some s =>
    match duration_from_string s with
    | some d =>
      ({ self with
          max_wallclock := d
          has_wallclock_limit := true
          wallclock_start := now }, none)
    | none =>
      (self, some "The value given for environment variable CHM_WALLCLOCK is invalid")

/-- `core::chkptOp`: the checkpoint policy.  `ckpt_path` is a filesystem
path (plain string here); the `netcdf in_savestate` member belongs to the
external checkpoint-store collaborator and is omitted.
`abort_when_wallclock_left` is a `time_duration` in seconds. -/
structure chkptOp where
  ckpt_path : String
  do_checkpoint : Bool
  load_from_checkpoint : Bool
  abort_when_wallclock_left : Int
  on_outta_time : Option Bool
  on_last : Option Bool
  frequency : Option Nat
  checkpoint_request_terminate : Bool
  deriving DecidableEq

/-- `chkptOp()` constructor: the member-initializer list sets
`do_checkpoint{false}`, `load_from_checkpoint{false}`, `on_last{false}`
(note: this engages the optional with value `false`), and
`checkpoint_request_terminate{false}`; the body sets
`abort_when_wallclock_left = minutes(2)` (120 s).  `on_outta_time` and
`frequency` are default-constructed, i.e. disengaged. -/
def chkptOp.ctor : chkptOp :=
  { ckpt_path := ""
    do_checkpoint := false
    load_from_checkpoint := false
    abort_when_wallclock_left := 120
    on_outta_time := none
    on_last := some false
    frequency := none
    checkpoint_request_terminate := false }

/-- The C++ `bool`-to-`int` conversion applied to the local
`outoftime` flag before the MPI reduction: `true ↦ 1`, `false ↦ 0`. -/
def boolToCInt (b : Bool) : Int :=
  if b then 1 else 0

/-- `boost::mpi::all_reduce(comm_world, x, r, maximum<int>())` as observed
by one process: the reduction of this process's contribution `x` with the
contributions of every other process in the communicator. -/
def mpi_all_reduce_maximum (x : Int) (others : List Int) : Int :=
  others.foldl max x

/-- The condition of the second branch of `should_checkpoint`:
`on_last && *on_last && is_last_ts`. -/
def chkptOp.on_last_fires (self : chkptOp) (is_last_ts : Bool) : Bool :=
  (match self.on_last with | some b => b | none => false) && is_last_ts

/-- The condition of the third branch of `should_checkpoint`:
`frequency && current_ts != 0 && (current_ts % *frequency == 0)` (the
deref happens only when the optional is engaged, by short-circuiting). -/
def chkptOp.frequency_fires (self : chkptOp) (current_ts : Nat) : Bool :=
  match self.frequency with
  | some f => decide (current_ts ≠ 0) && decide (current_ts % f = 0)
  | none => false

/-- The guard of the out-of-time branch:
`on_outta_time && *on_outta_time && scheduler_info.has_wallclock_limit`. -/
def chkptOp.outta_time_armed (self : chkptOp)
    (scheduler_info : hpc_scheduler_info) : Bool :=
  (match self.on_outta_time with | some b => b | none => false)
    && scheduler_info.has_wallclock_limit

/-- Result of one `should_checkpoint` call: the returned boolean, the
post-state of the `chkptOp` object (the body's only member write is
`checkpoint_request_terminate = true`), and — instrumentation for the
concurrency analysis — whether control reached the
`boost::mpi::all_reduce` collective during the call. -/
structure chkpt_result where
  retval : Bool
  post : chkptOp
  collective_invoked : Bool
  deriving DecidableEq

/-- `core::chkptOp::should_checkpoint(current_ts, is_last_ts,
scheduler_info, comm_world)`.  `now` is the wall-clock instant at which
`scheduler_info.wallclock_remaining()` samples `local_time()`.
`others_outoftime` stands for the MPI communicator: the local
`outoftime` booleans of the other processes (each of which computes its
contribution by the same `int outoftime = (remaining <= margin)`
conversion, so the integers on the wire are exactly `boolToCInt` of
booleans). -/
def chkptOp.should_checkpoint (self : chkptOp) (current_ts : Nat)
    (is_last_ts : Bool) (scheduler_info : hpc_scheduler_info) (now : Int)
    (others_outoftime : List Bool) : chkpt_result :=
  if !self.do_checkpoint then
    { retval := false, post := self, collective_invoked := false }
  else if self.on_last_fires is_last_ts then
    { retval := true, post := self, collective_invoked := false }
  else if self.frequency_fires current_ts then
    { retval := true, post := self, collective_invoked := false }
  else if self.outta_time_armed scheduler_info then
    let outoftime : Int :=
      boolToCInt
        (decide (scheduler_info.wallclock_remaining now
                   ≤ self.abort_when_wallclock_left))
    let global_outoftime : Int :=
      mpi_all_reduce_maximum outoftime (others_outoftime.map boolToCInt)
    if global_outoftime ≠ 0 then
      { retval := true
        post := { self with checkpoint_request_terminate := true }
        collective_invoked := true }
    else
      { retval := false, post := self, collective_invoked := true }
  else
    { retval := false, post := self, collective_invoked := false }

/-- The decision rule exactly as §4.4 of the design states it, in priority
order; in the out-of-time branch the local about-to-run-out booleans of
all cooperating processes are combined by logical OR. -/
def spec_should_checkpoint (self : chkptOp) (current_ts : Nat)
    (is_last_ts : Bool) (scheduler_info : hpc_scheduler_info) (now : Int)
    (others_outoftime : List Bool) : Bool :=
  if !self.do_checkpoint then false
  else if self.on_last_fires is_last_ts then true
  else if self.frequency_fires current_ts then true
  else if self.outta_time_armed scheduler_info then
    decide (scheduler_info.wallclock_remaining now
              ≤ self.abort_when_wallclock_left)
      || others_outoftime.any id
  else false

/-- A checkpoint policy that checkpoints every `f` timesteps and has every
other trigger off (constructor defaults otherwise). -/
def freq_chkpt (f : Nat) : chkptOp :=
  { chkptOp.ctor with do_checkpoint := true, frequency := some f }

/-- Folding a sequence of `should_checkpoint` evaluations over the policy
state: each list element carries one call's arguments
`(current_ts, is_last_ts, scheduler_info, now, others_outoftime)`, and the
post-state of one call is the state of the next. -/
def run_checkpoints (self : chkptOp)
    (evals : List (Nat × Bool × hpc_scheduler_info × Int × List Bool)) :
    chkptOp :=
  evals.foldl
    (fun op e =>
      (op.should_checkpoint e.1 e.2.1 e.2.2.1 e.2.2.2.1 e.2.2.2.2).post)
    self

theorem chm_ite_true_or {p : Prop} [Decidable p] (b : Bool) :
    (if p then true else b) = (decide p || b) := by
  by_cases h : p <;> simp [h]

theorem size_t_sub_le_SIZE_MAX (a b : Nat) : size_t_sub a b ≤ SIZE_MAX := by
  unfold size_t_sub SIZE_MAX
  omega

theorem size_t_sub_of_le {a b : Nat} (h1 : b ≤ a) (h2 : a < 2 ^ 64) :
    size_t_sub a b = a - b := by
  unfold size_t_sub
  omega

/-- Claim C10: a default-constructed output descriptor emits on every
timestep: the constructor engages `only_last_n` with `SIZE_MAX`, and
`should_output` then returns `true` for every
`(max_ts, current_ts, date)` — there is no "no trigger configured, never
output" state at this interface. -/
theorem default_output_always_emits :
    (∀ t, (output_info_ctor t).only_last_n = some SIZE_MAX)
    ∧ (∀ t max_ts current_ts d,
        ((output_info_ctor t).should_output max_ts current_ts d).1 = true) := by
  constructor
  · intro t
    rfl
  · intro t max_ts current_ts d
    have h : size_t_sub max_ts current_ts ≤ SIZE_MAX :=
      size_t_sub_le_SIZE_MAX max_ts current_ts
    simp [output_info.should_output, output_info_ctor, h]

/-- Claim C2: `should_output` is the OR of its four configured trigger
matches (an unconfigured trigger never matches); with `max_ts = 100` and
`only_last_n = 5` it fires exactly for `current_ts ∈ [95, 100]` and not
before, and with `frequency = 10` it fires exactly at the multiples of
10. -/
theorem should_output_or_combines_triggers :
    (∀ o max_ts current_ts d,
        (output_info.should_output o max_ts current_ts d).1
          = (matches_only_last_n o max_ts current_ts
             || matches_frequency o current_ts
             || matches_specific_time o d
             || matches_specific_datetime o d))
    ∧ (∀ current_ts d, current_ts ≤ 100 →
        (last5_output.should_output 100 current_ts d).1
          = decide (95 ≤ current_ts))
    ∧ (∀ max_ts current_ts d,
        (freq10_output.should_output max_ts current_ts d).1
          = decide (current_ts % 10 = 0)) := by
  refine ⟨?_, ?_, ?_⟩
  · intro o max_ts current_ts d
    obtain ⟨ty, nm, mf, fn, la, lo, x, y, vn, fr, sd, st, ol⟩ := o
    simp only [output_info.should_output, matches_only_last_n,
               matches_frequency, matches_specific_time,
               matches_specific_datetime]
    cases ol <;> cases fr <;> cases st <;> cases sd <;>
      simp [chm_ite_true_or, Bool.or_comm, Bool.or_assoc,
            Bool.or_left_comm]
  · intro current_ts d hc
    have h : size_t_sub 100 current_ts = 100 - current_ts :=
      size_t_sub_of_le hc (by norm_num)
    have h2 : (100 - current_ts ≤ 5) ↔ (95 ≤ current_ts) := by omega
    simp [last5_output, output_info_ctor, output_info.should_output, h, h2]
  · intro max_ts current_ts d
    simp [freq10_output, output_info_ctor, output_info.should_output]

theorem should_output_or_combines_triggers_witness :
    97 ≤ 100
    ∧ (last5_output.should_output 100 97 ⟨0, 0, 0, 0⟩).1 = decide (95 ≤ 97) :=
  ⟨by decide,
   should_output_or_combines_triggers.2.1 97 ⟨0, 0, 0, 0⟩ (by decide)⟩

/-- Claim C9: `should_output` is pure: it leaves the descriptor unchanged,
and its boolean result depends only on the passed timesteps, the current
date and the descriptor's four trigger fields. -/
theorem should_output_is_pure :
    (∀ o max_ts current_ts d,
        (output_info.should_output o max_ts current_ts d).2 = o)
    ∧ (∀ o o' max_ts current_ts d,
        o.only_last_n = o'.only_last_n →
        o.frequency = o'.frequency →
        o.specific_time = o'.specific_time →
        o.specific_datetime = o'.specific_datetime →
        (output_info.should_output o max_ts current_ts d).1
          = (output_info.should_output o' max_ts current_ts d).1) := by
  constructor
  · intro o max_ts current_ts d
    rfl
  · intro o o' max_ts current_ts d h1 h2 h3 h4
    simp only [output_info.should_output, h1, h2, h3, h4]

/-- A descriptor differing from the default only in its name. -/
def witness_output_a : output_info :=
  { output_info_ctor output_type.time_series with name := "a" }

/-- A descriptor with the same triggers as `witness_output_a` but a
different name, file name and type. -/
def witness_output_b : output_info :=
  { output_info_ctor output_type.mesh with fname := "b" }

theorem should_output_is_pure_witness :
    (witness_output_a.should_output 10 3 ⟨0, 0, 0, 0⟩).2 = witness_output_a
    ∧ (witness_output_a.should_output 10 3 ⟨0, 0, 0, 0⟩).1
        = (witness_output_b.should_output 10 3 ⟨0, 0, 0, 0⟩).1 :=
  ⟨should_output_is_pure.1 witness_output_a 10 3 ⟨0, 0, 0, 0⟩,
   should_output_is_pure.2 witness_output_a witness_output_b 10 3
     ⟨0, 0, 0, 0⟩ rfl rfl rfl rfl⟩

theorem boolToCInt_max (a b : Bool) :
    max (boolToCInt a) (boolToCInt b) = boolToCInt (a || b) := by
  cases a <;> cases b <;> decide

theorem boolToCInt_ne_zero (b : Bool) : boolToCInt b ≠ 0 ↔ b = true := by
  cases b <;> simp [boolToCInt]

theorem boolToCInt_eq_one (b : Bool) : boolToCInt b = 1 ↔ b = true := by
  cases b <;> simp [boolToCInt]

theorem mpi_max_eq_boolToCInt (b : Bool) (others : List Bool) :
    mpi_all_reduce_maximum (boolToCInt b) (others.map boolToCInt)
      = boolToCInt (b || others.any id) := by
  induction others generalizing b with
  | nil => simp [mpi_all_reduce_maximum]
  | cons c cs ih =>
    simp only [List.map_cons, mpi_all_reduce_maximum, List.foldl_cons]
    rw [boolToCInt_max]
    have h := ih (b || c)
    simp only [mpi_all_reduce_maximum] at h
    rw [h]
    simp [Bool.or_assoc]

/-- Claim C1: `should_checkpoint` implements the priority-ordered decision
rule of §4.4 (with the out-of-time decision being the OR over all
processes' local about-to-run-out booleans); the frequency trigger never
fires at timestep 0; and with frequency 4 over timesteps 0–9 checkpoints
occur exactly at timesteps 4 and 8. -/
theorem should_checkpoint_priority_rule :
    (∀ self current_ts is_last_ts si now others,
        (chkptOp.should_checkpoint self current_ts is_last_ts si now
            others).retval
          = spec_should_checkpoint self current_ts is_last_ts si now others)
    ∧ (∀ f si now others,
        ((freq_chkpt f).should_checkpoint 0 false si now others).retval
          = false)
    ∧ (∀ ts, ts < 10 →
        ((freq_chkpt 4).should_checkpoint ts (decide (ts = 9))
            hpc_scheduler_info.ctor 0 []).retval
          = (decide (ts = 4) || decide (ts = 8))) := by
  refine ⟨?_, ?_, ?_⟩
  · intro self current_ts is_last_ts si now others
    unfold chkptOp.should_checkpoint spec_should_checkpoint
    cases h1 : self.do_checkpoint <;> simp [h1]
    cases h2 : self.on_last_fires is_last_ts <;> simp [h2]
    cases h3 : self.frequency_fires current_ts <;> simp [h3]
    cases h4 : self.outta_time_armed si <;> simp [h4]
    rw [mpi_max_eq_boolToCInt]
    cases hL : (decide (si.wallclock_remaining now
                  ≤ self.abort_when_wallclock_left) || others.any id) <;>
      simp [hL, boolToCInt]
  · intro f si now others
    simp [chkptOp.should_checkpoint, freq_chkpt, chkptOp.ctor,
          chkptOp.on_last_fires, chkptOp.frequency_fires,
          chkptOp.outta_time_armed]
  · intro ts hts
    interval_cases ts <;> decide

theorem should_checkpoint_priority_rule_witness :
    4 < 10
    ∧ ((freq_chkpt 4).should_checkpoint 4 (decide ((4 : Nat) = 9))
          hpc_scheduler_info.ctor 0 []).retval
        = (decide ((4 : Nat) = 4) || decide ((4 : Nat) = 8)) :=
  ⟨by decide, should_checkpoint_priority_rule.2.2 4 (by decide)⟩

theorem sc_post_terminate_mono (self : chkptOp) (current_ts : Nat)
    (is_last_ts : Bool) (si : hpc_scheduler_info) (now : Int)
    (others : List Bool)
    (h : self.checkpoint_request_terminate = true) :
    (chkptOp.should_checkpoint self current_ts is_last_ts si now
        others).post.checkpoint_request_terminate = true := by
  unfold chkptOp.should_checkpoint
  split
  · exact h
  · split
    · exact h
    · split
      · exact h
      · split
        · by_cases hg : mpi_all_reduce_maximum
              (boolToCInt (decide (si.wallclock_remaining now
                 ≤ self.abort_when_wallclock_left)))
              (List.map boolToCInt others) ≠ 0 <;> simp [hg, h]
        · exact h

/-- Claim C3: the termination-request flag is sticky: one
`should_checkpoint` evaluation preserves
`checkpoint_request_terminate = true`, and hence so does any sequence of
evaluations within a run. -/
theorem checkpoint_terminate_sticky :
    (∀ self current_ts is_last_ts si now others,
        self.checkpoint_request_terminate = true →
        (chkptOp.should_checkpoint self current_ts is_last_ts si now
            others).post.checkpoint_request_terminate = true)
    ∧ (∀ self evals,
        self.checkpoint_request_terminate = true →
        (run_checkpoints self evals).checkpoint_request_terminate = true) := by
  constructor
  · exact sc_post_terminate_mono
  · intro self evals h
    induction evals generalizing self with
    | nil => exact h
    | cons e es ih =>
      exact ih _ (sc_post_terminate_mono self e.1 e.2.1 e.2.2.1 e.2.2.2.1
        e.2.2.2.2 h)

/-- A policy whose sticky termination flag has already been set. -/
def terminate_set_chkpt : chkptOp :=
  { chkptOp.ctor with
      do_checkpoint := true
      frequency := some 2
      checkpoint_request_terminate := true }

theorem checkpoint_terminate_sticky_witness :
    terminate_set_chkpt.checkpoint_request_terminate = true
    ∧ (run_checkpoints terminate_set_chkpt
        [(1, false, hpc_scheduler_info.ctor, 0, []),
         (2, false, hpc_scheduler_info.ctor, 3, []),
         (3, true, hpc_scheduler_info.ctor, 5, [])]).checkpoint_request_terminate
        = true :=
  ⟨rfl,
   checkpoint_terminate_sticky.2 terminate_set_chkpt
     [(1, false, hpc_scheduler_info.ctor, 0, []),
      (2, false, hpc_scheduler_info.ctor, 3, []),
      (3, true, hpc_scheduler_info.ctor, 5, [])] rfl⟩

/-- Claim C4: the maximum all-reduce over the 0/1-encoded local
out-of-time booleans yields, on every process, 1 (equivalently, a nonzero
value, which is what the code's truthiness test checks) iff at least one
process's local check was true — i.e. it is the logical-OR consensus — and
whenever the combined decision is true in the out-of-time branch,
`should_checkpoint` sets the sticky termination flag and returns true. -/
theorem max_all_reduce_is_logical_or :
    (∀ (b : Bool) (others : List Bool),
        (mpi_all_reduce_maximum (boolToCInt b) (others.map boolToCInt) = 1
          ↔ (b = true ∨ ∃ x ∈ others, x = true))
        ∧ (mpi_all_reduce_maximum (boolToCInt b) (others.map boolToCInt) ≠ 0
          ↔ (b = true ∨ ∃ x ∈ others, x = true)))
    ∧ (∀ self current_ts is_last_ts si now others,
        self.do_checkpoint = true →
        self.on_last_fires is_last_ts = false →
        self.frequency_fires current_ts = false →
        self.outta_time_armed si = true →
        (si.wallclock_remaining now ≤ self.abort_when_wallclock_left
          ∨ ∃ x ∈ others, x = true) →
        ((chkptOp.should_checkpoint self current_ts is_last_ts si now
            others).retval = true
         ∧ (chkptOp.should_checkpoint self current_ts is_last_ts si now
            others).post.checkpoint_request_terminate = true)) := by
  constructor
  · intro b others
    rw [mpi_max_eq_boolToCInt, boolToCInt_eq_one, boolToCInt_ne_zero]
    constructor <;> simp [List.any_eq_true]
  · intro self current_ts is_last_ts si now others h1 h2 h3 h4 hor
    have hL : (decide (si.wallclock_remaining now
                 ≤ self.abort_when_wallclock_left) || others.any id)
                = true := by
      cases hor with
      | inl h => simp [h]
      | inr h =>
        have ha : others.any id = true := by
          simpa [List.any_eq_true] using h
        simp [ha]
    have hne : mpi_all_reduce_maximum
        (boolToCInt (decide (si.wallclock_remaining now
           ≤ self.abort_when_wallclock_left)))
        (others.map boolToCInt) ≠ 0 := by
      rw [mpi_max_eq_boolToCInt, hL]
      simp [boolToCInt]
    unfold chkptOp.should_checkpoint
    simp [h1, h2, h3, h4, hne]

/-- A policy with only the out-of-time trigger armed. -/
def outta_time_chkpt : chkptOp :=
  { chkptOp.ctor with do_checkpoint := true, on_outta_time := some true }

/-- A detected wall-clock budget of 100 s started at instant 0. -/
def limited_scheduler : hpc_scheduler_info :=
  { max_wallclock := 100, wallclock_start := 0, has_wallclock_limit := true }

theorem max_all_reduce_is_logical_or_witness :
    (outta_time_chkpt.should_checkpoint 1 false limited_scheduler 50
        []).retval = true
    ∧ (outta_time_chkpt.should_checkpoint 1 false limited_scheduler 50
        []).post.checkpoint_request_terminate = true :=
  max_all_reduce_is_logical_or.2 outta_time_chkpt 1 false limited_scheduler
    50 [] rfl rfl rfl rfl (Or.inl (by decide))

/-- Claim C5 counterexample: on the default-constructed policy
(checkpointing disabled) `should_checkpoint` returns without control ever
reaching the `boost::mpi::all_reduce` call, refuting the claim that every
evaluation performs the collective reduction unconditionally. -/
theorem collective_skipped_when_disabled :
    (chkptOp.ctor.should_checkpoint 5 false hpc_scheduler_info.ctor 0
        []).collective_invoked = false := by
  rfl

/-- Claim C5 (amended): the consensus collective inside
`should_checkpoint` is reached exactly when checkpointing is enabled,
neither the on-last nor the frequency trigger fires, the out-of-time
option is enabled and a wall-clock limit was detected; on every other
evaluation (in particular when checkpointing is disabled or an earlier
trigger already returned) the collective is not invoked. -/
theorem collective_invoked_iff_outta_time_checked :
    ∀ self current_ts is_last_ts si now others,
      (chkptOp.should_checkpoint self current_ts is_last_ts si now
          others).collective_invoked
        = (self.do_checkpoint && !self.on_last_fires is_last_ts
           && !self.frequency_fires current_ts
           && self.outta_time_armed si) := by
  intro self current_ts is_last_ts si now others
  unfold chkptOp.should_checkpoint
  cases h1 : self.do_checkpoint <;> simp [h1]
  cases h2 : self.on_last_fires is_last_ts <;> simp [h2]
  cases h3 : self.frequency_fires current_ts <;> simp [h3]
  cases h4 : self.outta_time_armed si <;> simp [h4]
  split <;> rfl

/-- A policy with the on-last option enabled but checkpointing disabled
(constructor default `do_checkpoint = false`). -/
def on_last_but_disabled : chkptOp :=
  { chkptOp.ctor with on_last := some true }

/-- Claim C6 counterexample: with the on-last option enabled but
checkpointing disabled, `should_checkpoint` returns `false` on a last
timestep — the disabled check has priority, so the claim fails for
states with checkpointing disabled. -/
theorem on_last_without_enable_no_checkpoint :
    (on_last_but_disabled.should_checkpoint 9 true hpc_scheduler_info.ctor
        0 []).retval = false := by
  rfl

/-- Claim C6 (amended): whenever checkpointing is enabled and the on-last
option is enabled, `should_checkpoint` returns true on a timestep flagged
as the last, regardless of the frequency and out-of-time settings. -/
theorem should_checkpoint_on_last_enabled :
    ∀ self current_ts si now others,
      self.do_checkpoint = true →
      self.on_last = some true →
      (chkptOp.should_checkpoint self current_ts true si now
          others).retval = true := by
  intro self current_ts si now others h1 h2
  unfold chkptOp.should_checkpoint
  simp [h1, chkptOp.on_last_fires, h2]

/-- A policy with checkpointing enabled, the on-last option enabled, and a
frequency that does not divide the scenario timestep. -/
def on_last_enabled_chkpt : chkptOp :=
  { chkptOp.ctor with
      do_checkpoint := true
      on_last := some true
      frequency := some 3 }

theorem should_checkpoint_on_last_enabled_witness :
    (on_last_enabled_chkpt.should_checkpoint 7 true hpc_scheduler_info.ctor
        0 []).retval = true :=
  should_checkpoint_on_last_enabled on_last_enabled_chkpt 7
    hpc_scheduler_info.ctor 0 [] rfl rfl

/-- A SLURM batch environment: job identifiers present, no explicit
wall-clock override. -/
def slurm_only_env : chm_environment :=
  { SLURM_JOB_ID := some "12345"
    SLURM_TASK_PID := some "67"
    SLURM_PROCID := some "0"
    PBS_JOBID := none
    CHM_WALLCLOCK_LIMIT := none }

/-- Claim C7 counterexample: running under a SLURM batch job (so the
scheduler's job wall-clock limit governs the process) with no explicit
override, `detect` records no limit: the state is returned unchanged with
`has_wallclock_limit = false`, even with a parser that would accept any
duration — refuting the claim that a batch-scheduler job limit alone is
recorded. -/
theorem slurm_job_records_no_limit :
    hpc_scheduler_info.ctor.detect slurm_only_env (fun _ => some 3600) 0
      = (hpc_scheduler_info.ctor, none)
    ∧ hpc_scheduler_info.ctor.has_wallclock_limit = false :=
  ⟨rfl, rfl⟩

/-- Claim C7 (amended): detection records a wall-clock limit
(`has_wallclock_limit = true` with the parsed duration and the start
instant captured) exactly when the explicit `CHM_WALLCLOCK_LIMIT`
override is present and well-formed; when no override is supplied the
state is returned unchanged — the SLURM/PBS job identifiers are only
logged and never record a limit. -/
theorem detect_limit_iff_parsed_override :
    ∀ self env parse now,
      (∀ s d, env.CHM_WALLCLOCK_LIMIT = some s → parse s = some d →
          hpc_scheduler_info.detect self env parse now
            = ({ max_wallclock := d
                 wallclock_start := now
                 has_wallclock_limit := true }, none))
      ∧ (env.CHM_WALLCLOCK_LIMIT = none →
          hpc_scheduler_info.detect self env parse now = (self, none)) := by
  intro self env parse now
  constructor
  · intro s d hs hd
    simp [hpc_scheduler_info.detect, hs, hd]
  · intro hnone
    simp [hpc_scheduler_info.detect, hnone]

/-- An environment supplying only the explicit wall-clock override. -/
def override_env : chm_environment :=
  { SLURM_JOB_ID := none
    SLURM_TASK_PID := none
    SLURM_PROCID := none
    PBS_JOBID := none
    CHM_WALLCLOCK_LIMIT := some "01:00:00" }

theorem detect_limit_iff_parsed_override_witness :
    hpc_scheduler_info.ctor.detect override_env (fun _ => some 3600) 7
      = ({ max_wallclock := 3600
           wallclock_start := 7
           has_wallclock_limit := true }, none)
    ∧ hpc_scheduler_info.ctor.detect slurm_only_env (fun _ => some 3600) 7
        = (hpc_scheduler_info.ctor, none) :=
  ⟨(detect_limit_iff_parsed_override hpc_scheduler_info.ctor override_env
      (fun _ => some 3600) 7).1 "01:00:00" 3600 rfl rfl,
   (detect_limit_iff_parsed_override hpc_scheduler_info.ctor slurm_only_env
      (fun _ => some 3600) 7).2 rfl⟩

/-- Claim C8: an explicit override that is present but unparsable makes
`detect` fail with the configuration error, and the failure is atomic:
the returned state is the unchanged pre-state, so no wall-clock limit is
recorded when the error is raised. -/
theorem detect_malformed_override_errors :
    ∀ self env parse now s,
      env.CHM_WALLCLOCK_LIMIT = some s →
      parse s = none →
      hpc_scheduler_info.detect self env parse now
        = (self,
           some "The value given for environment variable CHM_WALLCLOCK is invalid") := by
  intro self env parse now s hs hp
  simp [hpc_scheduler_info.detect, hs, hp]

/-- An environment whose explicit wall-clock override is malformed. -/
def malformed_env : chm_environment :=
  { SLURM_JOB_ID := none
    SLURM_TASK_PID := none
    SLURM_PROCID := none
    PBS_JOBID := none
    CHM_WALLCLOCK_LIMIT := some "badduration" }

theorem detect_malformed_override_errors_witness :
    hpc_scheduler_info.ctor.detect malformed_env (fun _ => none) 0
      = (hpc_scheduler_info.ctor,
         some "The value given for environment variable CHM_WALLCLOCK is invalid") :=
  detect_malformed_override_errors hpc_scheduler_info.ctor malformed_env
    (fun _ => none) 0 "badduration" rfl rfl
